import Mathlib

/-!
Verification of the performance-instrumentation core of `src/src/node_perf.cc`
(milestone tracking, GC cycle tracking, observer notification, event-loop
idle-time query, interval-histogram creation) against its specification.

Timestamps are modelled as exact numbers: machine `uint64_t` nanosecond counts
become `Nat` (or `ℚ` where the code does floating-point division by 1e6);
the C `double` divisions `x / 1e6` are modelled as exact rational division.
Fallible operations (out-of-bounds array writes, fatal CHECK failures) are
modelled with explicit result types instead of undefined behaviour.
-/

namespace NodePerf

/-- Modelled from the spec: the generated milestone enumeration is a closed
list of identifiers whose count is the sentinel `NODE_PERFORMANCE_MILESTONE_INVALID`;
the `milestones` array has exactly that length.  The concrete count does not
matter to any claim; six real milestones are used (the spec names
`BOOTSTRAP_COMPLETE` among them). -/
def NODE_PERFORMANCE_MILESTONE_INVALID : Int := 6

/-- Modelled from the spec: the generated entry-type enumeration; `gc` and
`http` are defined entry types and the sentinel
`NODE_PERFORMANCE_ENTRY_TYPE_INVALID` equals the number of defined types,
which is also the length of the `observers` counter array. -/
def NODE_PERFORMANCE_ENTRY_TYPE_GC : Nat := 0

def NODE_PERFORMANCE_ENTRY_TYPE_HTTP : Nat := 1

def NODE_PERFORMANCE_ENTRY_TYPE_INVALID : Nat := 2

/-- Modelled from the spec: `ToPerformanceEntryTypeEnum` (declared in the
missing `node_perf.h`) maps an entry-type name to its identifier, and any
unknown name to the `INVALID` sentinel. -/
def toPerformanceEntryTypeEnum (name : String) : Nat :=
  if name = "gc" then NODE_PERFORMANCE_ENTRY_TYPE_GC
  else if name = "http" then NODE_PERFORMANCE_ENTRY_TYPE_HTTP
  else NODE_PERFORMANCE_ENTRY_TYPE_INVALID

/-- The SharedStateRegion of `PerformanceState`: the `milestones` array of
double-precision timestamps (`-1` = unset sentinel) and the `observers`
array of unsigned interest counters, as laid out in
`performance_state_internal`.  Milestone values are stored as exact integers
(the source stores `static_cast<double>(ts)` of a `uint64_t` nanosecond
count). -/
structure PerformanceState where
  milestones : List Int
  observers : List Nat
  deriving Repr, DecidableEq

/-- A write into the backing typed array at an index outside its fixed
length is not defined behaviour; it is modelled as an explicit fault. -/
inductive WriteFault where
  | outOfBounds
  deriving Repr, DecidableEq

/-- `PerformanceState` constructor (node_perf.cc:46-64): with no
`SerializeInfo` every milestone slot is initialised to the `-1` sentinel and
every observer counter starts at zero. -/
def PerformanceState.create (milestoneCount entryTypeCount : Nat) : PerformanceState :=
  { milestones := List.replicate milestoneCount (-1)
    observers := List.replicate entryTypeCount 0 }

/-- `PerformanceState::Mark` (node_perf.cc:92-98): writes
`static_cast<double>(ts)` into `milestones[milestone]` unconditionally.
The index comes from an `Int32` cast; an index outside the fixed array is an
out-of-bounds write on the backing store, modelled as a fault. -/
def PerformanceState.Mark (s : PerformanceState) (milestone : Int) (ts : Nat) :
    Except WriteFault PerformanceState :=
  if 0 ≤ milestone ∧ milestone < (s.milestones.length : Int) then
    .ok { s with milestones := s.milestones.set milestone.toNat (ts : Int) }
  else
    .error .outOfBounds

/-- `MarkMilestone` (node_perf.cc:101-110): the binding guards only against
the `INVALID` sentinel; any other identifier reaches
`PerformanceState::Mark` unchecked. -/
def markMilestone (s : PerformanceState) (milestone : Int) (ts : Nat) :
    Except WriteFault PerformanceState :=
  if milestone ≠ NODE_PERFORMANCE_MILESTONE_INVALID then
    PerformanceState.Mark s milestone ts
  else
    .ok s

/-- The raw array contents captured by `PerformanceState::Serialize`
(node_perf.cc:66-72): the snapshot of the region's backing stores. -/
structure SerializeInfo where
  milestones : List Int
  observers : List Nat
  deriving Repr, DecidableEq

/-- `PerformanceState::Serialize` (node_perf.cc:66-72): saves the raw
contents of the region's arrays. -/
def PerformanceState.Serialize (s : PerformanceState) : SerializeInfo :=
  { milestones := s.milestones, observers := s.observers }

/-- `PerformanceState::Deserialize` (node_perf.cc:74-80): restores the
arrays from the snapshot; milestone values are NOT reset here (the source
comment defers that to a later step). -/
def PerformanceState.Deserialize (info : SerializeInfo) : PerformanceState :=
  { milestones := info.milestones, observers := info.observers }

/-- Modelled from the spec: the reinitialize step the owner must run after
`Deserialize` (it lives outside this translation unit), which "resets all
milestone slots to sentinel". -/
def resetMilestones (s : PerformanceState) : PerformanceState :=
  { s with milestones := List.replicate s.milestones.length (-1) }

/-! ## GC cycle tracking -/

/-- The transient GC-cycle state of `PerformanceState` together with the
environment facts `MarkGarbageCollectionEnd` reads: the observer counter for
the GC entry type and `env->time_origin()`.  Timestamps are rational
nanosecond counts (`PERFORMANCE_NOW()` values). -/
structure GCState where
  current_gc_type : Nat
  performance_last_gc_start_mark : ℚ
  gcObserverCount : Nat
  time_origin : ℚ
  deriving Repr, DecidableEq

/-- A GC performance entry as constructed by `MarkGarbageCollectionEnd`
(node_perf.cc:182-190): name, start time and duration in milliseconds, and
the kind/flags detail payload. -/
structure GCPerformanceEntry where
  name : String
  startTime : ℚ
  duration : ℚ
  kind : Nat
  flags : Nat
  deriving Repr, DecidableEq

/-- A task handed to `env->SetImmediate(..., CallbackFlags::kUnrefed)`:
the entry whose delivery is deferred to the host task queue, with the
unreferenced hint. -/
structure DeferredTask where
  entry : GCPerformanceEntry
  unrefed : Bool
  deriving Repr, DecidableEq

/-- `MarkGarbageCollectionStart` (node_perf.cc:121-134): a prologue signal
is ignored while `current_gc_type` is nonzero (reentrancy guard); otherwise
it records `performance_last_gc_start_mark = now` and sets
`current_gc_type = type`. -/
def markGarbageCollectionStart (s : GCState) (type : Nat) (now : ℚ) : GCState :=
  if s.current_gc_type ≠ 0 then s
  else { s with performance_last_gc_start_mark := now, current_gc_type := type }

/-- `MarkGarbageCollectionEnd` (node_perf.cc:163-195): a mismatched epilogue
signal is ignored; a matched one clears `current_gc_type`, and, only when
the GC observer counter is nonzero, builds one entry (times in
milliseconds: divisions by `NANOS_PER_MILLIS = 1e6`) and defers its delivery
via `SetImmediate` with `CallbackFlags::kUnrefed`.  The returned list holds
the deferred tasks scheduled by this call. -/
def markGarbageCollectionEnd (s : GCState) (type flags : Nat) (now : ℚ) :
    GCState × List DeferredTask :=
  if type ≠ s.current_gc_type then (s, [])
  else
    let s' := { s with current_gc_type := 0 }
    if s.gcObserverCount = 0 then (s', [])
    else
      let start_time := (s.performance_last_gc_start_mark - s.time_origin) / 1000000
      let duration := now / 1000000 - s.performance_last_gc_start_mark / 1000000
      (s', [{ entry := { name := "gc", startTime := start_time, duration := duration,
                         kind := type, flags := flags }
              unrefed := true }])

/-- A collector signal: a prologue (`MarkGarbageCollectionStart`) or an
epilogue (`MarkGarbageCollectionEnd`) callback, with the `PERFORMANCE_NOW()`
value observed during the call. -/
inductive GCSignal where
  | gcStart (type : Nat) (now : ℚ)
  | gcEnd (type : Nat) (flags : Nat) (now : ℚ)
  deriving Repr, DecidableEq

/-- The GC type carried by a signal.  V8's `GCType` values are nonzero
bit flags, so every real signal has a nonzero type. -/
def GCSignal.type : GCSignal → Nat
  | .gcStart t _ => t
  | .gcEnd t _ _ => t

/-- Whether a signal is an epilogue of the given GC type. -/
def GCSignal.isEndOf (k : Nat) : GCSignal → Bool
  | .gcStart _ _ => false
  | .gcEnd t _ _ => t = k

/-- One collector callback dispatched to the tracker. -/
def stepGC (s : GCState) : GCSignal → GCState × List DeferredTask
  | .gcStart t now => (markGarbageCollectionStart s t now, [])
  | .gcEnd t f now => markGarbageCollectionEnd s t f now

/-- A whole sequence of collector callbacks, accumulating every deferred
task they schedule. -/
def runGC (s : GCState) : List GCSignal → GCState × List DeferredTask
  | [] => (s, [])
  | g :: gs =>
      let p := stepGC s g
      let q := runGC p.1 gs
      (q.1, p.2 ++ q.2)

/-! ## Observer notification -/

/-- The realm state `Notify` touches: the observer counters and the single
performance-entry callback slot.  Modelled from the spec for the slot itself
(`Realm::set_performance_entry_callback` lives outside this unit): at most
one callback is registered, the last `setupObservers` call wins, and
invoking an empty slot delivers nothing.  Callbacks and entries are opaque
identifiers. -/
structure NotifyEnv where
  observers : List Nat
  performance_entry_callback : Option Nat
  deriving Repr, DecidableEq

/-- `SetupPerformanceObservers` (node_perf.cc:112-118): stores the given
callback in the realm slot, replacing any previous one. -/
def setupPerformanceObservers (env : NotifyEnv) (cb : Nat) : NotifyEnv :=
  { env with performance_entry_callback := some cb }

/-- `Notify` (node_perf.cc:238-249): maps the entry-type name to its
identifier; when it is not the `INVALID` sentinel and its observer counter
is nonzero, the registered callback is invoked once with the entry.
The result lists the (callback, entry) invocations performed. -/
def notify (env : NotifyEnv) (typeName : String) (entry : Nat) : List (Nat × Nat) :=
  let entry_type := toPerformanceEntryTypeEnum typeName
  if entry_type ≠ NODE_PERFORMANCE_ENTRY_TYPE_INVALID ∧ env.observers.getD entry_type 0 ≠ 0 then
    match env.performance_entry_callback with
    | some cb => [(cb, entry)]
    | none => []
  else []

/-! ## Event-loop idle time and the interval histogram -/

/-- Modelled from the spec and libuv: the host event loop's accumulated
idle-time metric (`uv_metrics_idle_time`), a nanosecond count (the source
file's own convention `NANOS_PER_MILLIS = 1e6` converts such counts to
milliseconds). -/
structure EventLoop where
  metricsIdleTimeNanos : Nat
  deriving Repr, DecidableEq

/-- `LoopIdleTime` (node_perf.cc:252-256): returns
`1.0 * uv_metrics_idle_time(loop) / 1e6` and leaves the loop untouched; the
returned pair makes the absence of mutation explicit. -/
def loopIdleTime (loop : EventLoop) : ℚ × EventLoop :=
  ((loop.metricsIdleTimeNanos : ℚ) / 1000000, loop)

/-- The spec's reading of `loopIdleTime`: the host's idle-time count
converted to seconds (a nanosecond count divided by 1e9). -/
def loopIdleTimeSecondsSpec (loop : EventLoop) : ℚ :=
  (loop.metricsIdleTimeNanos : ℚ) / 1000000000

/-- Outcome of `CreateELDHistogram`: either a histogram whose recurring
timer is armed with the requested interval, a typed error surfaced to the
caller (the channel the spec describes; the code never produces it), or a
fatal `CHECK` failure that terminates the host process. -/
inductive ELDResult where
  | histogram (interval : Int)
  | typedError (message : String)
  | fatalCheckFailure
  deriving Repr, DecidableEq

/-- `CreateELDHistogram` (node_perf.cc:258-277): `CHECK_GT(interval, 0)`
aborts the process on a non-positive interval; otherwise the interval
histogram is created with its timer armed at `interval`. -/
def createELDHistogram (interval : Int) : ELDResult :=
  if interval > 0 then .histogram interval else .fatalCheckFailure

end NodePerf

namespace NodePerf

/-! ## Theorems -/

/-- C2: for a matched `onCycleEnd` (end type equals the nonzero in-progress
`current_gc_type`): with a zero GC observer counter no entry is constructed
or delivered; with a nonzero counter exactly one entry is built and its
delivery is deferred (returned as a scheduled task, not an immediate
callback — it runs after `MarkGarbageCollectionEnd` returns) with the
unreferenced hint, and under a monotonic clock (`now` at the end is at
least the recorded start mark) its duration is nonnegative. -/
theorem gc_end_entry_emission (s : GCState) (k f : Nat) (t : ℚ)
    (hk : k = s.current_gc_type) (hnz : k ≠ 0) :
    (s.gcObserverCount = 0 →
      markGarbageCollectionEnd s k f t = ({ s with current_gc_type := 0 }, [])) ∧
    (s.gcObserverCount ≠ 0 →
      ((markGarbageCollectionEnd s k f t).2.length = 1 ∧
       ∀ d ∈ (markGarbageCollectionEnd s k f t).2,
         d.unrefed = true ∧
         (s.performance_last_gc_start_mark ≤ t → 0 ≤ d.entry.duration))) := by
  constructor
  · intro hobs
    simp [markGarbageCollectionEnd, hk, hobs]
  · intro hobs
    simp only [markGarbageCollectionEnd, hk]
    rw [if_neg (by simp), if_neg hobs]
    refine ⟨rfl, ?_⟩
    intro d hd
    simp only [List.mem_singleton] at hd
    subst hd
    refine ⟨rfl, fun hmono => ?_⟩
    show (0 : ℚ) ≤ t / 1000000 - s.performance_last_gc_start_mark / 1000000
    rw [div_sub_div_same]
    exact div_nonneg (sub_nonneg.mpr hmono) (by norm_num)

/-- C2 witness: a matched end of kind 1 with observer counter 0 delivers
nothing; with counter 1 it schedules exactly one deferred task. -/
theorem gc_end_entry_emission_witness :
    markGarbageCollectionEnd ⟨1, 10, 0, 0⟩ 1 2 50 = (⟨0, 10, 0, 0⟩, []) ∧
    (markGarbageCollectionEnd ⟨1, 10, 1, 0⟩ 1 2 50).2.length = 1 :=
  ⟨(gc_end_entry_emission ⟨1, 10, 0, 0⟩ 1 2 50 rfl (by decide)).1 rfl,
   ((gc_end_entry_emission ⟨1, 10, 1, 0⟩ 1 2 50 rfl (by decide)).2 (by decide)).1⟩

/-- C3: every entry constructed by `MarkGarbageCollectionEnd` has
`startTime = (performance_last_gc_start_mark - time_origin) / 1e6` and
`duration = now / 1e6 - performance_last_gc_start_mark / 1e6`
(nanosecond inputs, millisecond results). -/
theorem gc_entry_times (s : GCState) (k f : Nat) (t : ℚ) (d : DeferredTask)
    (hd : d ∈ (markGarbageCollectionEnd s k f t).2) :
    d.entry.startTime = (s.performance_last_gc_start_mark - s.time_origin) / 1000000 ∧
    d.entry.duration = t / 1000000 - s.performance_last_gc_start_mark / 1000000 := by
  unfold markGarbageCollectionEnd at hd
  split at hd
  · simp at hd
  · split at hd
    · simp at hd
    · simp only [List.mem_singleton] at hd
      subst hd
      exact ⟨rfl, rfl⟩

/-- C3 witness: concrete matched end (start mark 10 ns, origin 0, end at
50 ns): the single entry's times are as specified. -/
theorem gc_entry_times_witness :
    (⟨⟨"gc", (10 - 0) / 1000000, 50 / 1000000 - 10 / 1000000, 1, 2⟩, true⟩ :
        DeferredTask).entry.startTime = ((10 : ℚ) - 0) / 1000000 ∧
    (⟨⟨"gc", (10 - 0) / 1000000, 50 / 1000000 - 10 / 1000000, 1, 2⟩, true⟩ :
        DeferredTask).entry.duration = (50 : ℚ) / 1000000 - 10 / 1000000 :=
  gc_entry_times ⟨1, 10, 1, 0⟩ 1 2 50 _ (by simp [markGarbageCollectionEnd])

/-- C4: with a registered callback, `Notify` invokes it exactly once with
the given entry iff the entry-type name maps to a non-`INVALID` identifier
whose observer counter is nonzero; a zero counter means no invocation; and
with no callback registered `Notify` delivers nothing and buffers nothing
(the empty-slot behaviour of the realm is modelled from the spec). -/
theorem notify_gating (env : NotifyEnv) (typeName : String) (entry cb : Nat) :
    (env.performance_entry_callback = some cb →
      (notify env typeName entry = [(cb, entry)] ↔
        (toPerformanceEntryTypeEnum typeName ≠ NODE_PERFORMANCE_ENTRY_TYPE_INVALID ∧
         env.observers.getD (toPerformanceEntryTypeEnum typeName) 0 ≠ 0))) ∧
    (env.observers.getD (toPerformanceEntryTypeEnum typeName) 0 = 0 →
      notify env typeName entry = []) ∧
    (env.performance_entry_callback = none → notify env typeName entry = []) := by
  have hne : notify env typeName entry =
      if toPerformanceEntryTypeEnum typeName ≠ NODE_PERFORMANCE_ENTRY_TYPE_INVALID ∧
         env.observers.getD (toPerformanceEntryTypeEnum typeName) 0 ≠ 0 then
        (match env.performance_entry_callback with
         | some cb => [(cb, entry)]
         | none => []) else [] := rfl
  refine ⟨?_, ?_, ?_⟩
  · intro hcb
    rw [hne, hcb]
    by_cases hcond : toPerformanceEntryTypeEnum typeName ≠ NODE_PERFORMANCE_ENTRY_TYPE_INVALID ∧
        env.observers.getD (toPerformanceEntryTypeEnum typeName) 0 ≠ 0
    · rw [if_pos hcond]
      exact iff_of_true rfl hcond
    · rw [if_neg hcond]
      exact iff_of_false (by simp) hcond
  · intro hz
    rw [hne, if_neg (fun h => h.2 hz)]
  · intro hnone
    rw [hne, hnone]
    split <;> rfl

/-- C4 witness: observer counter 1 for "gc" with callback 7 delivers once;
counter 0 delivers nothing; no registered callback delivers nothing. -/
theorem notify_gating_witness :
    notify ⟨[1, 0], some 7⟩ "gc" 42 = [(7, 42)] ∧
    notify ⟨[0, 0], some 7⟩ "gc" 42 = [] ∧
    notify ⟨[1, 0], none⟩ "gc" 42 = [] :=
  ⟨((notify_gating ⟨[1, 0], some 7⟩ "gc" 42 7).1 rfl).mpr (by decide),
   (notify_gating ⟨[0, 0], some 7⟩ "gc" 42 7).2.1 (by decide),
   (notify_gating ⟨[1, 0], none⟩ "gc" 42 7).2.2 rfl⟩

end NodePerf

namespace NodePerf

/-- C5 counterexample: an out-of-range milestone id other than the sentinel
is NOT a no-op — `MarkMilestone` only guards against
`NODE_PERFORMANCE_MILESTONE_INVALID`, so id 7 (past the 6-slot array)
reaches an unchecked out-of-bounds write instead of leaving the region
unchanged. -/
theorem markMilestone_out_of_range_faults :
    markMilestone (PerformanceState.create 6 2) 7 5 = .error WriteFault.outOfBounds ∧
    Except.error WriteFault.outOfBounds ≠ Except.ok (PerformanceState.create 6 2) :=
  ⟨rfl, fun h => Except.noConfusion h⟩

/-- C5 (amended): for the invalid-sentinel milestone id, `markMilestone` is
a silent no-op that leaves the `PerformanceState` region byte-for-byte
unchanged; ids other than the sentinel are not range-checked. -/
theorem markMilestone_sentinel_noop (s : PerformanceState) (ts : Nat) :
    markMilestone s NODE_PERFORMANCE_MILESTONE_INVALID ts = .ok s := by
  simp [markMilestone]

/-- C6 counterexample: a non-positive interval does not produce a typed
"invalid argument" error for the caller — at interval 0 the result is a
fatal `CHECK_GT` failure, which terminates the host process. -/
theorem createELDHistogram_no_typed_error :
    ¬ ∀ i : Int, i ≤ 0 → ∃ msg, createELDHistogram i = ELDResult.typedError msg := by
  intro h
  obtain ⟨msg, hm⟩ := h 0 le_rfl
  simp [createELDHistogram] at hm

/-- C6 (amended): a non-positive interval makes `CreateELDHistogram` fail
the `CHECK_GT(interval, 0)` assertion — a fatal process abort, not a typed
error returned to the caller — before any timer is armed; a positive
interval arms the histogram timer at that interval. -/
theorem createELDHistogram_check (i : Int) :
    (i ≤ 0 → createELDHistogram i = ELDResult.fatalCheckFailure) ∧
    (0 < i → createELDHistogram i = ELDResult.histogram i) := by
  constructor
  · intro h
    simp [createELDHistogram, not_lt.mpr h]
  · intro h
    simp [createELDHistogram, h]

/-- C6 witness: interval 0 aborts; interval 5 arms the histogram. -/
theorem createELDHistogram_check_witness :
    createELDHistogram 0 = ELDResult.fatalCheckFailure ∧
    createELDHistogram 5 = ELDResult.histogram 5 :=
  ⟨(createELDHistogram_check 0).1 (by decide), (createELDHistogram_check 5).2 (by decide)⟩

/-- C7 counterexample: with the host's nanosecond idle-time count at
2e9 ns (two seconds), `LoopIdleTime` returns 2000 — milliseconds — while a
result in seconds would be 2. -/
theorem loopIdleTime_not_seconds :
    (loopIdleTime ⟨2000000000⟩).1 = 2000 ∧
    loopIdleTimeSecondsSpec ⟨2000000000⟩ = 2 ∧ (2000 : ℚ) ≠ 2 := by
  refine ⟨?_, ?_, by norm_num⟩ <;> norm_num [loopIdleTime, loopIdleTimeSecondsSpec]

/-- C7 (amended): `loopIdleTime` is a stateless query (the loop is
unchanged) returning the host's accumulated idle time divided by 1e6 —
milliseconds for the host's nanosecond base unit, not seconds. -/
theorem loopIdleTime_millis (loop : EventLoop) :
    (loopIdleTime loop).1 * 1000000 = (loop.metricsIdleTimeNanos : ℚ) ∧
    (loopIdleTime loop).2 = loop := by
  constructor
  · unfold loopIdleTime
    field_simp
  · rfl

/-- C8: for a valid milestone id, `PerformanceState::Mark` succeeds and the
subsequent read of that slot yields a timestamp that is at least the
previously stored value (given the prior value was the sentinel or, under a
monotonic clock, at most the fresh reading) and is never the `-1`
sentinel. -/
theorem mark_monotone (s : PerformanceState) (id : Int) (ts : Nat)
    (h0 : 0 ≤ id) (hl : id < (s.milestones.length : Int))
    (hm : s.milestones.getD id.toNat 0 = -1 ∨ s.milestones.getD id.toNat 0 ≤ (ts : Int)) :
    PerformanceState.Mark s id ts =
      .ok { s with milestones := s.milestones.set id.toNat ((ts : Int)) } ∧
    s.milestones.getD id.toNat 0 ≤ (s.milestones.set id.toNat ((ts : Int))).getD id.toNat 0 ∧
    (s.milestones.set id.toNat ((ts : Int))).getD id.toNat 0 ≠ -1 := by
  have hlt : id.toNat < s.milestones.length := by omega
  have hset : (s.milestones.set id.toNat ((ts : Int))).getD id.toNat 0 = (ts : Int) := by
    rw [List.getD_eq_getElem?_getD, List.getElem?_set_self, Option.getD_some]
    · simpa using hlt
  refine ⟨?_, ?_, ?_⟩
  · rw [PerformanceState.Mark, if_pos ⟨h0, hl⟩]
  · rw [hset]
    rcases hm with h | h
    · rw [h]
      omega
    · exact h
  · rw [hset]
    omega

/-- C8 witness: marking milestone 2 of a fresh 6-slot region with
timestamp 100 stores a value above the prior sentinel and distinct from
it. -/
theorem mark_monotone_witness :
    (PerformanceState.create 6 2).milestones.getD 2 0 ≤
      ((PerformanceState.create 6 2).milestones.set 2 (((100 : Nat) : Int))).getD 2 0 ∧
    ((PerformanceState.create 6 2).milestones.set 2 (((100 : Nat) : Int))).getD 2 0 ≠ -1 :=
  (mark_monotone (PerformanceState.create 6 2) 2 100 (by decide) (by decide) (by decide)).2

/-- C9: serializing and deserializing the SharedStateRegion reproduces the
observer counters exactly, and the required post-deserialize reinitialize
step leaves every milestone slot at the `-1` sentinel whatever was stored
before. -/
theorem serialize_roundtrip (s : PerformanceState) :
    (PerformanceState.Deserialize (PerformanceState.Serialize s)).observers = s.observers ∧
    resetMilestones (PerformanceState.Deserialize (PerformanceState.Serialize s)) =
      { milestones := List.replicate s.milestones.length (-1), observers := s.observers } ∧
    ∀ m ∈ (resetMilestones (PerformanceState.Deserialize
        (PerformanceState.Serialize s))).milestones, m = -1 := by
  refine ⟨rfl, rfl, ?_⟩
  intro m hm
  exact List.eq_of_mem_replicate hm

/-- C9 witness: a concrete region with one marked milestone round-trips its
observer counters and comes back all-sentinel after reinitialization. -/
theorem serialize_roundtrip_witness :
    (PerformanceState.Deserialize (PerformanceState.Serialize ⟨[5, -1], [3]⟩)).observers
      = [3] ∧ (-1 : Int) = -1 :=
  ⟨(serialize_roundtrip ⟨[5, -1], [3]⟩).1,
   (serialize_roundtrip ⟨[5, -1], [3]⟩).2.2 (-1) (by decide)⟩

end NodePerf

namespace NodePerf

/-! ## Trace lemmas for the GC cycle state machine -/

theorem runGC_append (s : GCState) (l1 l2 : List GCSignal) :
    runGC s (l1 ++ l2) =
      ((runGC (runGC s l1).1 l2).1, (runGC s l1).2 ++ (runGC (runGC s l1).1 l2).2) := by
  induction l1 generalizing s with
  | nil => simp [runGC]
  | cons g gs ih =>
      simp [runGC, ih (stepGC s g).1, List.append_assoc]

theorem runGC_snoc (s : GCState) (l : List GCSignal) (g : GCSignal) :
    runGC s (l ++ [g]) =
      ((stepGC (runGC s l).1 g).1, (runGC s l).2 ++ (stepGC (runGC s l).1 g).2) := by
  rw [runGC_append]
  simp [runGC]

theorem markGCEnd_fst (s : GCState) (k f : Nat) (t : ℚ) :
    (markGarbageCollectionEnd s k f t).1 =
      if k = s.current_gc_type then { s with current_gc_type := 0 } else s := by
  unfold markGarbageCollectionEnd
  split
  · rfl
  · rename_i h
    rw [if_pos (not_not.mp h)]
    split <;> rfl

theorem markGCEnd_snd (s : GCState) (k f : Nat) (t : ℚ) :
    (markGarbageCollectionEnd s k f t).2 =
      if k = s.current_gc_type ∧ s.gcObserverCount ≠ 0 then
        [⟨⟨"gc", (s.performance_last_gc_start_mark - s.time_origin) / 1000000,
           t / 1000000 - s.performance_last_gc_start_mark / 1000000, k, f⟩, true⟩]
      else [] := by
  unfold markGarbageCollectionEnd
  split
  · rename_i h
    rw [if_neg (fun hc => h hc.1)]
  · rename_i h
    split
    · rename_i hobs
      rw [if_neg (fun hc => hc.2 hobs)]
    · rename_i hobs
      rw [if_pos ⟨not_not.mp h, hobs⟩]

theorem stepGC_preserves (s : GCState) (g : GCSignal) :
    (stepGC s g).1.gcObserverCount = s.gcObserverCount ∧
    (stepGC s g).1.time_origin = s.time_origin := by
  cases g with
  | gcStart k t =>
      simp only [stepGC, markGarbageCollectionStart]
      split
      · exact ⟨rfl, rfl⟩
      · exact ⟨rfl, rfl⟩
  | gcEnd k f t =>
      simp only [stepGC, markGCEnd_fst]
      split
      · exact ⟨rfl, rfl⟩
      · exact ⟨rfl, rfl⟩

theorem runGC_preserves (s0 : GCState) (l : List GCSignal) :
    (runGC s0 l).1.gcObserverCount = s0.gcObserverCount ∧
    (runGC s0 l).1.time_origin = s0.time_origin := by
  induction l generalizing s0 with
  | nil => exact ⟨rfl, rfl⟩
  | cons g gs ih =>
      exact ⟨((ih (stepGC s0 g).1).1).trans (stepGC_preserves s0 g).1,
             ((ih (stepGC s0 g).1).2).trans (stepGC_preserves s0 g).2⟩

/-- If a run from an idle tracker ends with a nonzero `current_gc_type`,
the trace splits at the accepted prologue of that kind: everything after it
left the state exactly as that prologue set it (in particular the start
mark), and no epilogue of that kind occurs after it. -/
theorem runGC_open_cycle (s0 : GCState) (sigs : List GCSignal) :
    s0.current_gc_type = 0 → (∀ g ∈ sigs, g.type ≠ 0) →
    ∀ c, (runGC s0 sigs).1.current_gc_type = c → c ≠ 0 →
    ∃ l1 t l2, sigs = l1 ++ GCSignal.gcStart c t :: l2 ∧
      (runGC s0 l1).1.current_gc_type = 0 ∧
      (runGC s0 sigs).1 = markGarbageCollectionStart (runGC s0 l1).1 c t ∧
      ∀ x ∈ l2, x.isEndOf c = false := by
  induction sigs using List.reverseRecOn with
  | nil =>
      intro h0 _ c hc hcne
      exact absurd (hc.symm.trans h0) hcne
  | append_singleton l g ih =>
      intro h0 hk c hc hcne
      have hkl : ∀ x ∈ l, x.type ≠ 0 := fun x hx => hk x (by simp [hx])
      have hkg : g.type ≠ 0 := hk g (by simp)
      have hfin : (runGC s0 (l ++ [g])).1 = (stepGC (runGC s0 l).1 g).1 := by
        rw [runGC_snoc]
      cases g with
      | gcStart k t =>
          by_cases hcur : (runGC s0 l).1.current_gc_type = 0
          · have hstep : (stepGC (runGC s0 l).1 (GCSignal.gcStart k t)).1 =
                markGarbageCollectionStart (runGC s0 l).1 k t := rfl
            have hck : c = k := by
              rw [hfin, hstep, markGarbageCollectionStart, if_neg (not_not_intro hcur)] at hc
              exact hc.symm
            subst hck
            refine ⟨l, t, [], by simp, hcur, ?_, by simp⟩
            rw [hfin, hstep]
          · have hstate : (stepGC (runGC s0 l).1 (GCSignal.gcStart k t)).1 = (runGC s0 l).1 := by
              simp only [stepGC, markGarbageCollectionStart]
              rw [if_pos hcur]
            rw [hstate] at hfin
            rw [hfin] at hc
            obtain ⟨l1, t', l2, hsp, hz, hst, hnoend⟩ := ih h0 hkl c hc hcne
            refine ⟨l1, t', l2 ++ [GCSignal.gcStart k t], ?_, hz, ?_, ?_⟩
            · rw [hsp]
              simp
            · rw [hfin, ← hst]
            · intro x hx
              rcases List.mem_append.mp hx with hx | hx
              · exact hnoend x hx
              · simp only [List.mem_singleton] at hx
                subst hx
                rfl
      | gcEnd k f t =>
          have hstep : (stepGC (runGC s0 l).1 (GCSignal.gcEnd k f t)).1 =
              if k = (runGC s0 l).1.current_gc_type then
                { (runGC s0 l).1 with current_gc_type := 0 } else (runGC s0 l).1 := by
            simp only [stepGC, markGCEnd_fst]
          by_cases hm : k = (runGC s0 l).1.current_gc_type
          · rw [hfin, hstep, if_pos hm] at hc
            exact absurd hc.symm hcne
          · rw [hstep, if_neg hm] at hfin
            rw [hfin] at hc
            obtain ⟨l1, t', l2, hsp, hz, hst, hnoend⟩ := ih h0 hkl c hc hcne
            refine ⟨l1, t', l2 ++ [GCSignal.gcEnd k f t], ?_, hz, ?_, ?_⟩
            · rw [hsp]
              simp
            · rw [hfin, ← hst]
            · intro x hx
              rcases List.mem_append.mp hx with hx | hx
              · exact hnoend x hx
              · simp only [List.mem_singleton] at hx
                subst hx
                simp only [GCSignal.isEndOf]
                rw [hc] at hm
                exact decide_eq_false hm
end NodePerf

namespace NodePerf

/-- Every deferred task produced by a run was emitted by some epilogue
signal whose kind equalled the then-current `current_gc_type`, with a
nonzero GC observer counter, and its times were computed from the state's
start mark and time origin at that moment. -/
theorem runGC_emission (s0 : GCState) (sigs : List GCSignal) (d : DeferredTask) :
    d ∈ (runGC s0 sigs).2 →
    ∃ l1 f t l3, sigs = l1 ++ GCSignal.gcEnd d.entry.kind f t :: l3 ∧
      d.entry.kind = (runGC s0 l1).1.current_gc_type ∧
      (runGC s0 l1).1.gcObserverCount ≠ 0 ∧
      d.entry.startTime = ((runGC s0 l1).1.performance_last_gc_start_mark -
          (runGC s0 l1).1.time_origin) / 1000000 ∧
      d.entry.duration = t / 1000000 -
          (runGC s0 l1).1.performance_last_gc_start_mark / 1000000 := by
  induction sigs using List.reverseRecOn with
  | nil =>
      intro hd
      simp [runGC] at hd
  | append_singleton l g ih =>
      intro hd
      rw [runGC_snoc] at hd
      rcases List.mem_append.mp hd with hd | hd
      · obtain ⟨l1, f, t, l3, hsp, hcur, hobs, hst, hdur⟩ := ih hd
        exact ⟨l1, f, t, l3 ++ [g], by rw [hsp]; simp, hcur, hobs, hst, hdur⟩
      · cases g with
        | gcStart k t =>
            simp [stepGC] at hd
        | gcEnd k f t =>
            have hd2 : d ∈ (markGarbageCollectionEnd (runGC s0 l).1 k f t).2 := hd
            rw [markGCEnd_snd] at hd2
            split at hd2
            · rename_i hcond
              simp only [List.mem_singleton] at hd2
              subst hd2
              exact ⟨l, f, t, [], by simp, hcond.1, hcond.2, rfl, rfl⟩
            · simp at hd2

end NodePerf

namespace NodePerf

/-- C1: `current_gc_type` is nonzero only between a matched start and end
signal of the same kind: a prologue arriving while `current_gc_type` is
nonzero leaves the state unchanged (no nested starts); an epilogue whose
kind differs from `current_gc_type` leaves the state unchanged and emits
nothing; a matched epilogue clears `current_gc_type` to 0; and for every
signal sequence from the idle install state (with the nonzero kinds V8's
`GCType` supplies), a nonzero final `current_gc_type` comes from an
accepted prologue of exactly that kind with no matching epilogue after
it. -/
theorem gc_cycle_state_machine :
    (∀ (s : GCState) (k : Nat) (t : ℚ), s.current_gc_type ≠ 0 →
        markGarbageCollectionStart s k t = s) ∧
    (∀ (s : GCState) (k f : Nat) (t : ℚ), k ≠ s.current_gc_type →
        markGarbageCollectionEnd s k f t = (s, [])) ∧
    (∀ (s : GCState) (k f : Nat) (t : ℚ), k = s.current_gc_type →
        (markGarbageCollectionEnd s k f t).1.current_gc_type = 0) ∧
    (∀ (s0 : GCState) (sigs : List GCSignal), s0.current_gc_type = 0 →
        (∀ g ∈ sigs, g.type ≠ 0) → (runGC s0 sigs).1.current_gc_type ≠ 0 →
        ∃ l1 t l2,
          sigs = l1 ++ GCSignal.gcStart (runGC s0 sigs).1.current_gc_type t :: l2 ∧
          (runGC s0 l1).1.current_gc_type = 0 ∧
          ∀ x ∈ l2, x.isEndOf (runGC s0 sigs).1.current_gc_type = false) := by
  refine ⟨?_, ?_, ?_, ?_⟩
  · intro s k t h
    rw [markGarbageCollectionStart, if_pos h]
  · intro s k f t h
    unfold markGarbageCollectionEnd
    rw [if_pos h]
  · intro s k f t h
    rw [markGCEnd_fst, if_pos h]
  · intro s0 sigs h0 hk hne
    obtain ⟨l1, t, l2, hsp, hz, _, hnoend⟩ :=
      runGC_open_cycle s0 sigs h0 hk _ rfl hne
    exact ⟨l1, t, l2, hsp, hz, hnoend⟩

/-- C1 witness: with a minor GC (kind 1) in progress, a prologue of kind 2
is ignored, an epilogue of kind 2 is ignored, and the matching epilogue of
kind 1 clears the state. -/
theorem gc_cycle_state_machine_witness :
    markGarbageCollectionStart ⟨1, 5, 0, 0⟩ 2 7 = ⟨1, 5, 0, 0⟩ ∧
    markGarbageCollectionEnd ⟨1, 5, 0, 0⟩ 2 3 9 = (⟨1, 5, 0, 0⟩, []) ∧
    (markGarbageCollectionEnd ⟨1, 5, 0, 0⟩ 1 3 9).1.current_gc_type = 0 :=
  ⟨gc_cycle_state_machine.1 ⟨1, 5, 0, 0⟩ 2 7 (by decide),
   gc_cycle_state_machine.2.1 ⟨1, 5, 0, 0⟩ 2 3 9 (by decide),
   gc_cycle_state_machine.2.2.1 ⟨1, 5, 0, 0⟩ 1 3 9 rfl⟩

/-- C10: every GC entry a run emits was timed from the prologue that opened
its own cycle: the trace splits as (prefix, accepted start of the entry's
kind at mark `t`, a gap with no epilogue of that kind, the emitting
epilogue at `tn`, rest), the tracker was idle right before that start, and
the entry's start time and duration are computed from exactly that `t` —
never from a mark of an earlier or different cycle. -/
theorem gc_entry_start_mark_fresh (s0 : GCState) (sigs : List GCSignal)
    (h0 : s0.current_gc_type = 0) (hk : ∀ g ∈ sigs, g.type ≠ 0)
    (d : DeferredTask) (hd : d ∈ (runGC s0 sigs).2) :
    ∃ l1 t l2 f tn l3,
      sigs = l1 ++ GCSignal.gcStart d.entry.kind t ::
        (l2 ++ GCSignal.gcEnd d.entry.kind f tn :: l3) ∧
      (runGC s0 l1).1.current_gc_type = 0 ∧
      (∀ x ∈ l2, x.isEndOf d.entry.kind = false) ∧
      d.entry.startTime = (t - s0.time_origin) / 1000000 ∧
      d.entry.duration = tn / 1000000 - t / 1000000 := by
  obtain ⟨l1', f, tn, l3, hsp, hcur, hobs, hst, hdur⟩ := runGC_emission s0 sigs d hd
  have hkl : ∀ g ∈ l1', g.type ≠ 0 := by
    intro g hg
    exact hk g (by rw [hsp]; simp [hg])
  have hkend : d.entry.kind ≠ 0 := by
    have h := hk (GCSignal.gcEnd d.entry.kind f tn) (by rw [hsp]; simp)
    simpa [GCSignal.type] using h
  obtain ⟨l1, t, l2, hsp', hz, hstate, hnoend⟩ :=
    runGC_open_cycle s0 l1' h0 hkl d.entry.kind hcur.symm hkend
  have hmark : (runGC s0 l1').1.performance_last_gc_start_mark = t := by
    rw [hstate, markGarbageCollectionStart, if_neg (not_not_intro hz)]
  have horig : (runGC s0 l1').1.time_origin = s0.time_origin := (runGC_preserves s0 l1').2
  refine ⟨l1, t, l2, f, tn, l3, ?_, hz, hnoend, ?_, ?_⟩
  · rw [hsp, hsp']
    simp
  · rw [hst, hmark, horig]
  · rw [hdur, hmark]

/-- C10 witness: one complete cycle of kind 1 started at mark 10 and ended
at 50 with an interested observer yields an entry timed from that very
start mark. -/
theorem gc_entry_start_mark_fresh_witness :
    ∃ l1 t l2 f tn l3,
      [GCSignal.gcStart 1 10, GCSignal.gcEnd 1 2 50] =
        l1 ++ GCSignal.gcStart 1 t :: (l2 ++ GCSignal.gcEnd 1 f tn :: l3) ∧
      (runGC ⟨0, 0, 1, 0⟩ l1).1.current_gc_type = 0 ∧
      (∀ x ∈ l2, x.isEndOf 1 = false) ∧
      ((10 : ℚ) - 0) / 1000000 = (t - 0) / 1000000 ∧
      (50 : ℚ) / 1000000 - 10 / 1000000 = tn / 1000000 - t / 1000000 :=
  gc_entry_start_mark_fresh ⟨0, 0, 1, 0⟩ [GCSignal.gcStart 1 10, GCSignal.gcEnd 1 2 50]
    rfl (by decide)
    ⟨⟨"gc", ((10 : ℚ) - 0) / 1000000, (50 : ℚ) / 1000000 - 10 / 1000000, 1, 2⟩, true⟩
    (List.mem_singleton.mpr rfl)

end NodePerf
